import Mathlib

/-!
Verification of the SAFEUSE interaction-resolution core.

The deterministic core (Interaction Resolver, Risk Aggregator, Advice
Selector, Explanation Adapter) lives in the backend `server.py`, which is not
among the repository files available here; only its test log, the README and
the mobile frontend are.  Following the spec (sections 2-7), the core is
modelled below; each such definition carries a doc comment starting
`Modelled from the spec:`.  The frontend screens (`CheckerScreen`,
`ResultScreen`) are present in the sources and are embedded directly.
-/

/-- The five risk levels of the system, in increasing severity
(spec section 3 and the glossary). -/
inductive RiskLevel where
  | unknown
  | low
  | moderate
  | high
  | avoid
deriving DecidableEq, Repr

/-- Severity rank realising the total order
unknown < low < moderate < high < avoid (spec section 4.2). -/
def RiskLevel.toNat : RiskLevel → Nat
  | .unknown => 0
  | .low => 1
  | .moderate => 2
  | .high => 3
  | .avoid => 4

/-- Order on risk levels via severity rank. -/
def RiskLevel.le (a b : RiskLevel) : Prop := a.toNat ≤ b.toNat

instance (a b : RiskLevel) : Decidable (RiskLevel.le a b) :=
  Nat.decLe a.toNat b.toNat

/-- Worst-case combination of two risk levels. -/
def RiskLevel.max (a b : RiskLevel) : RiskLevel :=
  if a.toNat ≤ b.toNat then b else a

/-- The mode flag: prospective planning versus post-consumption monitoring
(spec sections 4.3 and 9). -/
inductive Mode where
  | planning
  | already_consumed
deriving DecidableEq, Repr

/-- A catalog substance record (spec section 3). -/
structure Substance where
  id : String
  name : String
  drug_class : String
  common_names : List String
deriving DecidableEq, Repr

/-- A documented pairwise interaction record (spec section 3). -/
structure Interaction where
  substance_a : String
  substance_b : String
  risk_level : RiskLevel
  mechanism : String
  notes : String
deriving DecidableEq, Repr

/-- A harm-reduction advice record; its context is a risk-level tag, a mode
tag, or a combination thereof (spec section 3). -/
structure HarmAdvice where
  risk_context : Option RiskLevel
  mode_context : Option Mode
  advice : String
deriving DecidableEq, Repr

/-- An emergency symptom record (spec section 3). -/
structure EmergencySymptom where
  name : String
  severity : String
  description : String
  action : String
deriving DecidableEq, Repr

/-- The read-only Catalog Store (spec sections 2 and 6). -/
structure Catalog where
  substances : List Substance
  interactions : List Interaction
  advice : List HarmAdvice
  symptoms : List EmergencySymptom
deriving DecidableEq, Repr

/-- Modelled from the spec: the fixed risk-level-to-color table of section 6,
with the concrete hex values recorded in the data-sources document. -/
def riskColor : RiskLevel → String
  | .low => "#10B981"
  | .moderate => "#F59E0B"
  | .high => "#EF4444"
  | .avoid => "#991B1B"
  | .unknown => "#6B7280"

/-- The lowercase name of a risk level as it appears in responses. -/
def riskName : RiskLevel → String
  | .unknown => "unknown"
  | .low => "low"
  | .moderate => "moderate"
  | .high => "high"
  | .avoid => "avoid"

/-- Modelled from the spec: the Interaction Resolver of section 4.1.  The
store is queried symmetrically, treating (A,B) and (B,A) as identical; the
result is the matched record or the distinguished unknown outcome `none`. -/
def resolve (interactions : List Interaction) (a b : String) : Option Interaction :=
  interactions.find? fun i =>
    (i.substance_a == a && i.substance_b == b) || (i.substance_a == b && i.substance_b == a)

/-- All unordered pairs of a list, each pair taken once. -/
def pairsOf : List String → List (String × String)
  | [] => []
  | x :: xs => (xs.map fun y => (x, y)) ++ pairsOf xs

/-- The risk level a pair resolves to; an unmatched pair is `unknown`
(spec section 4.2). -/
def pairRisk (interactions : List Interaction) (p : String × String) : RiskLevel :=
  match resolve interactions p.1 p.2 with
  | some i => i.risk_level
  | none => .unknown

/-- The Risk Aggregator's output: worst-case level and contributing pairs. -/
structure AggregateOutcome where
  risk_level : RiskLevel
  contributing : List Interaction
deriving DecidableEq, Repr

/-- Modelled from the spec: the Risk Aggregator of section 4.2.  It
enumerates all unordered pairs, resolves each, reduces with the worst-case
maximum starting from `unknown`, and retains all records achieving the
maximum as contributing pairs. -/
def aggregate (interactions : List Interaction) (ids : List String) : AggregateOutcome :=
  let ps := pairsOf ids
  let risk := (ps.map (pairRisk interactions)).foldl RiskLevel.max RiskLevel.unknown
  let recs := ps.filterMap fun p => resolve interactions p.1 p.2
  { risk_level := risk
    contributing := recs.filter fun i => i.risk_level == risk }

/-- Whether an advice record is specific to both the given risk level and
mode (spec section 4.3). -/
def isModeSpecific (risk : RiskLevel) (mode : Mode) (h : HarmAdvice) : Bool :=
  decide (h.risk_context = some risk ∧ h.mode_context = some mode)

/-- Whether an advice record is general advice for the given risk level,
not tied to a mode (spec section 4.3). -/
def isGeneral (risk : RiskLevel) (h : HarmAdvice) : Bool :=
  decide (h.risk_context = some risk ∧ h.mode_context = none)

/-- Modelled from the spec: the Advice Selector's harm-advice composition of
section 4.3: mode-specific advice first, then general risk-level advice,
each group preserving catalog insertion order. -/
def selectHarmAdvice (records : List HarmAdvice) (risk : RiskLevel) (mode : Mode) : List String :=
  ((records.filter (isModeSpecific risk mode)) ++ (records.filter (isGeneral risk))).map
    HarmAdvice.advice

/-- Modelled from the spec: emergency symptoms are attached only when the
risk level is high or avoid; otherwise the field is absent (spec 4.3). -/
def selectSymptoms (symptoms : List EmergencySymptom) (risk : RiskLevel) :
    Option (List EmergencySymptom) :=
  if risk = RiskLevel.high ∨ risk = RiskLevel.avoid then some symptoms else none

/-- The generation context the Explanation Adapter packages: risk level,
substance names, mode and mechanism hints (spec section 4.5). -/
structure GenContext where
  risk : RiskLevel
  substances : List String
  mode : Mode
  mechanisms : List String
deriving DecidableEq, Repr

/-- Modelled from the spec: the deterministic fallback sentence the
Explanation Adapter substitutes on generation failure, derived from the risk
level and the mechanism text (spec section 4.5). -/
def fallbackExplanation (risk : RiskLevel) (mechanisms : List String) : String :=
  "This combination is rated " ++ riskName risk
    ++ " based on documented interaction data. " ++ String.intercalate " " mechanisms

/-- Modelled from the spec: the Explanation Adapter of section 4.5.  The
external generation collaborator is an opaque fallible function; its output
is validated, and on failure or an empty (malformed) output the deterministic
fallback sentence is used.  The adapter never influences the risk level. -/
def explain (gen : GenContext → Option String) (ctx : GenContext) : String :=
  match gen ctx with
  | some s => if s = "" then fallbackExplanation ctx.risk ctx.mechanisms else s
  | none => fallbackExplanation ctx.risk ctx.mechanisms

/-- A combination-check request as the frontend sends it: substance ids and
the already-taken flag. -/
structure CheckRequest where
  substance_ids : List String
  already_taken : Bool
deriving DecidableEq, Repr

/-- The assembled request-scoped result (spec section 3, RiskResult). -/
structure RiskResult where
  risk_level : RiskLevel
  risk_color : String
  contributing_pairs : List Interaction
  substances : List String
  harm_advice : List String
  emergency_symptoms : Option (List EmergencySymptom)
  explanation : String
deriving DecidableEq, Repr

/-- A request validation failure (spec section 7). -/
inductive ValidationError where
  | badCardinality (n : Nat)
  | unknownSubstance (id : String)
deriving DecidableEq, Repr

/-- Deduplication keeping the first occurrence of each id (spec 4.2). -/
def dedupFirst : List String → List String
  | [] => []
  | x :: xs => x :: (dedupFirst xs).filter fun y => y != x

/-- Lookup-by-id on the Catalog Store (spec section 6). -/
def getSubstance (cat : Catalog) (id : String) : Option Substance :=
  cat.substances.find? fun s => s.id == id

/-- Resolved substance names in request order (spec section 4.2). -/
def namesFor (cat : Catalog) (ids : List String) : List String :=
  ids.filterMap fun i => (getSubstance cat i).map Substance.name

/-- The mode a request selects (spec sections 4.3 and 6). -/
def modeOf (req : CheckRequest) : Mode :=
  if req.already_taken then Mode.already_consumed else Mode.planning

/-- The deterministic fields of a response, before the explanation is
attached (spec section 4.5: risk, advice and symptoms are computed
independently of generation). -/
structure CoreOutcome where
  risk_level : RiskLevel
  contributing : List Interaction
  names : List String
  mode : Mode
  harm_advice : List String
  emergency_symptoms : Option (List EmergencySymptom)
deriving DecidableEq, Repr

/-- Modelled from the spec: the deterministic response computation for a
validated, deduplicated id list.  A single remaining id takes the degenerate
path of section 4.4: risk `unknown`, no contributing pairs, generic caution
advice, no emergency symptoms.  Two or three ids go through the Risk
Aggregator and the Advice Selector. -/
def coreFor (cat : Catalog) (ids : List String) (mode : Mode) : CoreOutcome :=
  if ids.length = 1 then
    { risk_level := RiskLevel.unknown
      contributing := []
      names := namesFor cat ids
      mode := mode
      harm_advice := selectHarmAdvice cat.advice RiskLevel.unknown mode
      emergency_symptoms := none }
  else
    let agg := aggregate cat.interactions ids
    { risk_level := agg.risk_level
      contributing := agg.contributing
      names := namesFor cat ids
      mode := mode
      harm_advice := selectHarmAdvice cat.advice agg.risk_level mode
      emergency_symptoms := selectSymptoms cat.symptoms agg.risk_level }

/-- Modelled from the spec: request validation and the deterministic part of
the control flow (spec sections 4.2, 4.4, 6, 7): wrong cardinality after
deduplication and unknown substance ids are validation failures surfaced
before the Aggregator runs. -/
def checkCore (cat : Catalog) (req : CheckRequest) : Except ValidationError CoreOutcome :=
  let ids := dedupFirst req.substance_ids
  if ids.length = 0 ∨ 3 < ids.length then
    Except.error (ValidationError.badCardinality ids.length)
  else
    match ids.find? fun i => (getSubstance cat i).isNone with
    | some badId => Except.error (ValidationError.unknownSubstance badId)
    | none => Except.ok (coreFor cat ids (modeOf req))

/-- The generation context of a deterministic outcome: at most the mechanism
text of the maximal contributing pairs (spec section 4.5). -/
def ctxOf (c : CoreOutcome) : GenContext :=
  { risk := c.risk_level
    substances := c.names
    mode := c.mode
    mechanisms := c.contributing.map Interaction.mechanism }

/-- Response assembly: the deterministic fields plus the explanation. -/
def assemble (c : CoreOutcome) (expl : String) : RiskResult :=
  { risk_level := c.risk_level
    risk_color := riskColor c.risk_level
    contributing_pairs := c.contributing
    substances := c.names
    harm_advice := c.harm_advice
    emergency_symptoms := c.emergency_symptoms
    explanation := expl }

/-- Modelled from the spec: the full request flow of section 2 - validation,
aggregation, advice selection, explanation, response assembly. -/
def checkRequest (cat : Catalog) (gen : GenContext → Option String) (req : CheckRequest) :
    Except ValidationError RiskResult :=
  (checkCore cat req).map fun c => assemble c (explain gen (ctxOf c))

/-- The `toggleSubstance` handler of `CheckerScreen` (frontend source):
an already-selected id is filtered out; otherwise the id is appended only
while fewer than 3 ids are selected. -/
def toggleSubstance (selected : List String) (id : String) : List String :=
  if id ∈ selected then
    selected.filter fun i => i != id
  else if selected.length < 3 then
    selected ++ [id]
  else
    selected

/-- The `handleCheck` handler of `CheckerScreen` (frontend source): it
returns early, posting nothing, when fewer than 2 ids are selected;
otherwise it posts the selected ids and the already-taken flag. -/
def handleCheck (selected : List String) (alreadyTaken : Bool) : Option CheckRequest :=
  if selected.length < 2 then none
  else some { substance_ids := selected, already_taken := alreadyTaken }

/-- An emergency symptom as the `ResultScreen` interface types it. -/
structure ResultSymptom where
  name : String
  description : String
  action : String
deriving DecidableEq, Repr

/-- The `ResultData` interface of `ResultScreen` (frontend source): the
symptoms field is a list or null. -/
structure ResultData where
  risk_level : String
  risk_color : String
  explanation : String
  harm_advice : List String
  emergency_symptoms : Option (List ResultSymptom)
  substances : List String
deriving DecidableEq, Repr

/-- The render condition of the emergency card in `ResultScreen` (frontend
source): the section is rendered exactly when
`resultData.emergency_symptoms && resultData.emergency_symptoms.length > 0`
is truthy. -/
def rendersEmergencySection (r : ResultData) : Bool :=
  match r.emergency_symptoms with
  | none => false
  | some l => decide (0 < l.length)

/-- A sample substance used by concrete witnesses. -/
def mdmaSubstance : Substance :=
  { id := "mdma", name := "MDMA", drug_class := "stimulant", common_names := ["molly"] }

/-- A sample substance used by concrete witnesses. -/
def alcoholSubstance : Substance :=
  { id := "alcohol", name := "Alcohol", drug_class := "depressant", common_names := ["booze"] }

/-- A sample substance used by concrete witnesses. -/
def lsdSubstance : Substance :=
  { id := "lsd", name := "LSD", drug_class := "psychedelic", common_names := ["acid"] }

/-- A sample substance used by concrete witnesses. -/
def cannabisSubstance : Substance :=
  { id := "cannabis", name := "Cannabis", drug_class := "cannabinoid", common_names := ["weed"] }

/-- A small concrete catalog in the shape of the seeded store, used by the
witnesses to evaluate the model on concrete inputs. -/
def sampleCatalog : Catalog :=
  { substances := [mdmaSubstance, alcoholSubstance, lsdSubstance, cannabisSubstance]
    interactions :=
      [ { substance_a := "mdma", substance_b := "alcohol", risk_level := RiskLevel.high
          mechanism := "Dehydration and cardiovascular strain.", notes := "" }
      , { substance_a := "lsd", substance_b := "mdma", risk_level := RiskLevel.low
          mechanism := "Common combination with mostly psychological risks.", notes := "" }
      , { substance_a := "cannabis", substance_b := "lsd", risk_level := RiskLevel.moderate
          mechanism := "Cannabis can intensify the psychedelic experience.", notes := "" } ]
    advice :=
      [ { risk_context := some RiskLevel.high, mode_context := some Mode.already_consumed
          advice := "Stay with someone you trust and monitor symptoms." }
      , { risk_context := some RiskLevel.unknown, mode_context := none
          advice := "No interaction data exists for this combination; start low and go slow." }
      , { risk_context := some RiskLevel.low, mode_context := none
          advice := "Stay hydrated." }
      , { risk_context := some RiskLevel.moderate, mode_context := none
          advice := "Use reduced doses of both substances." }
      , { risk_context := some RiskLevel.high, mode_context := none
          advice := "Avoid redosing and keep water nearby." }
      , { risk_context := some RiskLevel.avoid, mode_context := none
          advice := "This combination is life-threatening; do not mix." } ]
    symptoms :=
      [ { name := "Difficulty breathing", severity := "critical"
          description := "Slow or laboured breathing", action := "Call emergency services" } ] }

/-- A generator standing for a successful generation collaborator. -/
def sampleGen : GenContext → Option String :=
  fun _ => some "A short factual explanation of the assessed risk."

/-- A generator standing for a collaborator that always fails. -/
def failingGen : GenContext → Option String :=
  fun _ => none

/-- The sample two-substance request of the witnesses. -/
def mdmaAlcoholRequest : CheckRequest :=
  { substance_ids := ["mdma", "alcohol"], already_taken := false }

/-- A request whose ids deduplicate to a single substance. -/
def singleRequest : CheckRequest :=
  { substance_ids := ["mdma", "mdma"], already_taken := false }

/-- The placeholder result used to destructure a successful response. -/
def emptyResult : RiskResult :=
  { risk_level := RiskLevel.unknown, risk_color := "", contributing_pairs := []
    substances := [], harm_advice := [], emergency_symptoms := none, explanation := "" }

/-- The payload of a successful response, or the placeholder. -/
def resultOf (e : Except ValidationError RiskResult) : RiskResult :=
  match e with
  | Except.ok r => r
  | Except.error _ => emptyResult

/-- The concrete result of the sample request with the working generator. -/
def mdmaAlcoholResult : RiskResult :=
  resultOf (checkRequest sampleCatalog sampleGen mdmaAlcoholRequest)

/-- The concrete result of the sample request with the failing generator. -/
def failedResult : RiskResult :=
  resultOf (checkRequest sampleCatalog failingGen mdmaAlcoholRequest)

lemma RiskLevel.le_refl (a : RiskLevel) : RiskLevel.le a a := Nat.le_refl _

lemma RiskLevel.le_trans {a b c : RiskLevel} (h1 : RiskLevel.le a b) (h2 : RiskLevel.le b c) :
    RiskLevel.le a c := Nat.le_trans h1 h2

lemma RiskLevel.le_max_left (a b : RiskLevel) : RiskLevel.le a (RiskLevel.max a b) := by
  unfold RiskLevel.max RiskLevel.le
  split <;> omega

lemma RiskLevel.le_max_right (a b : RiskLevel) : RiskLevel.le b (RiskLevel.max a b) := by
  unfold RiskLevel.max RiskLevel.le
  split <;> omega

lemma RiskLevel.max_eq_or (a b : RiskLevel) :
    RiskLevel.max a b = a ∨ RiskLevel.max a b = b := by
  unfold RiskLevel.max
  split
  · exact Or.inr rfl
  · exact Or.inl rfl

lemma foldl_max_eq_init_or_mem (l : List RiskLevel) :
    ∀ a : RiskLevel, l.foldl RiskLevel.max a = a ∨ l.foldl RiskLevel.max a ∈ l := by
  induction l with
  | nil => intro a; exact Or.inl rfl
  | cons x xs ih =>
    intro a
    rw [List.foldl_cons]
    rcases ih (RiskLevel.max a x) with h | h
    · rw [h]
      rcases RiskLevel.max_eq_or a x with h2 | h2
      · rw [h2]; exact Or.inl rfl
      · rw [h2]; exact Or.inr (List.mem_cons_self x xs)
    · exact Or.inr (List.mem_cons_of_mem x h)

lemma le_foldl_max_init (l : List RiskLevel) :
    ∀ a : RiskLevel, RiskLevel.le a (l.foldl RiskLevel.max a) := by
  induction l with
  | nil => intro a; exact RiskLevel.le_refl a
  | cons x xs ih =>
    intro a
    rw [List.foldl_cons]
    exact RiskLevel.le_trans (RiskLevel.le_max_left a x) (ih (RiskLevel.max a x))

lemma le_foldl_max_of_mem (l : List RiskLevel) :
    ∀ (a r : RiskLevel), r ∈ l → RiskLevel.le r (l.foldl RiskLevel.max a) := by
  induction l with
  | nil => intro a r h; cases h
  | cons x xs ih =>
    intro a r h
    rw [List.foldl_cons]
    rcases List.mem_cons.mp h with h1 | h1
    · subst h1
      exact RiskLevel.le_trans (RiskLevel.le_max_right a r) (le_foldl_max_init xs (RiskLevel.max a r))
    · exact ih (RiskLevel.max a x) r h1

lemma find?_congr {α : Type} (l : List α) (p q : α → Bool) (h : ∀ x, p x = q x) :
    l.find? p = l.find? q := by
  induction l with
  | nil => rfl
  | cons x xs ih =>
    cases hp : p x with
    | true =>
      rw [List.find?_cons_of_pos xs hp, List.find?_cons_of_pos xs (by rw [← h x]; exact hp)]
    | false =>
      rw [List.find?_cons_of_neg xs (by rw [hp]; exact Bool.false_ne_true),
        List.find?_cons_of_neg xs (by rw [← h x, hp]; exact Bool.false_ne_true)]
      exact ih

lemma fallbackExplanation_ne_empty (risk : RiskLevel) (mechanisms : List String) :
    fallbackExplanation risk mechanisms ≠ "" := by
  intro hc
  have hl := congrArg String.length hc
  unfold fallbackExplanation at hl
  rw [String.length_append, String.length_append, String.length_append] at hl
  have h1 : ("This combination is rated " : String).length = 26 := by decide
  have h2 : ("" : String).length = 0 := by decide
  rw [h1, h2] at hl
  omega

lemma explain_ne_empty (gen : GenContext → Option String) (ctx : GenContext) :
    explain gen ctx ≠ "" := by
  unfold explain
  cases gen ctx with
  | none => exact fallbackExplanation_ne_empty _ _
  | some s =>
    show (if s = "" then fallbackExplanation ctx.risk ctx.mechanisms else s) ≠ ""
    by_cases hs : s = ""
    · rw [if_pos hs]; exact fallbackExplanation_ne_empty _ _
    · rw [if_neg hs]; exact hs

lemma explain_of_failing (gen : GenContext → Option String) (ctx : GenContext)
    (hfail : gen ctx = none ∨ gen ctx = some "") :
    explain gen ctx = fallbackExplanation ctx.risk ctx.mechanisms := by
  unfold explain
  rcases hfail with h | h
  · rw [h]
  · rw [h]
    show (if ("" : String) = "" then fallbackExplanation ctx.risk ctx.mechanisms else "")
        = fallbackExplanation ctx.risk ctx.mechanisms
    rw [if_pos rfl]

lemma selectSymptoms_isSome (symptoms : List EmergencySymptom) (risk : RiskLevel) :
    (selectSymptoms symptoms risk).isSome = true ↔
      (risk = RiskLevel.high ∨ risk = RiskLevel.avoid) := by
  unfold selectSymptoms
  split
  · case isTrue h => simpa using h
  · case isFalse h => simpa using h

lemma coreFor_emergency (cat : Catalog) (ids : List String) (mode : Mode) :
    (coreFor cat ids mode).emergency_symptoms.isSome = true ↔
      ((coreFor cat ids mode).risk_level = RiskLevel.high
        ∨ (coreFor cat ids mode).risk_level = RiskLevel.avoid) := by
  unfold coreFor
  split
  · simp
  · exact selectSymptoms_isSome cat.symptoms (aggregate cat.interactions ids).risk_level

lemma coreFor_harm_advice (cat : Catalog) (ids : List String) (mode : Mode) :
    (coreFor cat ids mode).harm_advice
      = selectHarmAdvice cat.advice (coreFor cat ids mode).risk_level (coreFor cat ids mode).mode := by
  unfold coreFor
  split <;> rfl

lemma checkCore_ok_eq (cat : Catalog) (req : CheckRequest) (c : CoreOutcome)
    (h : checkCore cat req = Except.ok c) :
    c = coreFor cat (dedupFirst req.substance_ids) (modeOf req) := by
  unfold checkCore at h
  dsimp only at h
  split at h
  · cases h
  · split at h
    · cases h
    · cases h
      rfl

lemma checkRequest_ok_eq (cat : Catalog) (gen : GenContext → Option String)
    (req : CheckRequest) (r : RiskResult)
    (h : checkRequest cat gen req = Except.ok r) :
    ∃ c : CoreOutcome, checkCore cat req = Except.ok c
      ∧ r = assemble c (explain gen (ctxOf c)) := by
  unfold checkRequest at h
  cases hc : checkCore cat req with
  | error e => rw [hc] at h; cases h
  | ok c =>
    rw [hc] at h
    refine ⟨c, rfl, ?_⟩
    cases h
    rfl

lemma checkRequest_error_eq (cat : Catalog) (gen : GenContext → Option String)
    (req : CheckRequest) (e : ValidationError)
    (h : checkRequest cat gen req = Except.error e) :
    checkCore cat req = Except.error e := by
  unfold checkRequest at h
  cases hc : checkCore cat req with
  | error e2 => rw [hc] at h; cases h; rfl
  | ok c => rw [hc] at h; cases h

/-- C1: for every set of 2 or 3 distinct substance ids, the aggregate risk
level is the maximum of the risks resolved for all C(n,2) unordered pairs
under the order unknown < low < moderate < high < avoid: it is an upper
bound of the pairwise risks, it is attained by some pair unless it is
`unknown`, and when every pair resolves to `unknown` the aggregate is
`unknown`; the pair list has exactly C(n,2) entries. -/
theorem aggregate_risk_is_pairwise_max (interactions : List Interaction) (ids : List String)
    (hnd : ids.Nodup) (hlen : ids.length = 2 ∨ ids.length = 3) :
    (∀ r ∈ (pairsOf ids).map (pairRisk interactions),
        RiskLevel.le r (aggregate interactions ids).risk_level)
    ∧ ((aggregate interactions ids).risk_level = RiskLevel.unknown
        ∨ (aggregate interactions ids).risk_level ∈ (pairsOf ids).map (pairRisk interactions))
    ∧ ((∀ r ∈ (pairsOf ids).map (pairRisk interactions), r = RiskLevel.unknown)
        → (aggregate interactions ids).risk_level = RiskLevel.unknown)
    ∧ ((pairsOf ids).map (pairRisk interactions)).length
        = ids.length * (ids.length - 1) / 2 := by
  have hagg : (aggregate interactions ids).risk_level
      = ((pairsOf ids).map (pairRisk interactions)).foldl RiskLevel.max RiskLevel.unknown := rfl
  refine ⟨?_, ?_, ?_, ?_⟩
  · intro r hr
    rw [hagg]
    exact le_foldl_max_of_mem _ _ r hr
  · rw [hagg]
    exact foldl_max_eq_init_or_mem _ _
  · intro hall
    rw [hagg]
    rcases foldl_max_eq_init_or_mem ((pairsOf ids).map (pairRisk interactions))
        RiskLevel.unknown with h | h
    · exact h
    · exact hall _ h
  · rcases hlen with h2 | h3
    · obtain ⟨a, b, rfl⟩ := List.length_eq_two.mp h2
      simp [pairsOf]
    · obtain ⟨a, b, c, rfl⟩ := List.length_eq_three.mp h3
      simp [pairsOf]

/-- C1 witness: the theorem applied to the concrete three-substance set
lsd, mdma, cannabis over the sample interaction table. -/
theorem aggregate_risk_is_pairwise_max_check :
    (["lsd", "mdma", "cannabis"] : List String).Nodup
    ∧ ((["lsd", "mdma", "cannabis"] : List String).length = 2
        ∨ (["lsd", "mdma", "cannabis"] : List String).length = 3)
    ∧ ((∀ r ∈ (pairsOf ["lsd", "mdma", "cannabis"]).map (pairRisk sampleCatalog.interactions),
          RiskLevel.le r (aggregate sampleCatalog.interactions ["lsd", "mdma", "cannabis"]).risk_level)
      ∧ ((aggregate sampleCatalog.interactions ["lsd", "mdma", "cannabis"]).risk_level = RiskLevel.unknown
          ∨ (aggregate sampleCatalog.interactions ["lsd", "mdma", "cannabis"]).risk_level
              ∈ (pairsOf ["lsd", "mdma", "cannabis"]).map (pairRisk sampleCatalog.interactions))
      ∧ ((∀ r ∈ (pairsOf ["lsd", "mdma", "cannabis"]).map (pairRisk sampleCatalog.interactions),
            r = RiskLevel.unknown)
          → (aggregate sampleCatalog.interactions ["lsd", "mdma", "cannabis"]).risk_level
              = RiskLevel.unknown)
      ∧ ((pairsOf ["lsd", "mdma", "cannabis"]).map (pairRisk sampleCatalog.interactions)).length
          = (["lsd", "mdma", "cannabis"] : List String).length
              * ((["lsd", "mdma", "cannabis"] : List String).length - 1) / 2) :=
  ⟨by decide, by decide,
    aggregate_risk_is_pairwise_max sampleCatalog.interactions ["lsd", "mdma", "cannabis"]
      (by decide) (by decide)⟩

/-- C3: the Interaction Resolver returns the same outcome for (A,B) and
(B,A), for every pair of distinct non-empty substance ids, whether the
outcome is a matched record or the distinguished unknown result `none`. -/
theorem resolve_symmetric (interactions : List Interaction) (a b : String)
    (hne : a ≠ b) (ha : a ≠ "") (hb : b ≠ "") :
    resolve interactions a b = resolve interactions b a := by
  unfold resolve
  apply find?_congr
  intro i
  exact Bool.or_comm _ _

/-- C3 witness: the theorem applied to the concrete pair mdma, alcohol. -/
theorem resolve_symmetric_check :
    resolve sampleCatalog.interactions "mdma" "alcohol"
      = resolve sampleCatalog.interactions "alcohol" "mdma" :=
  resolve_symmetric sampleCatalog.interactions "mdma" "alcohol"
    (by decide) (by decide) (by decide)

/-- C7: for every risk level and mode, the selected harm advice is the
concatenation of the mode-specific advice records first, followed by the
general risk-level records; each group is a sublist of the catalog, so
catalog insertion order is preserved and nothing is re-sorted; and when no
mode-specific advice exists the selection falls back to the risk-level
generic records alone. -/
theorem advice_selection_order (records : List HarmAdvice) (risk : RiskLevel) (mode : Mode) :
    selectHarmAdvice records risk mode
      = (records.filter (isModeSpecific risk mode)).map HarmAdvice.advice
        ++ (records.filter (isGeneral risk)).map HarmAdvice.advice
    ∧ (records.filter (isModeSpecific risk mode)).Sublist records
    ∧ (records.filter (isGeneral risk)).Sublist records
    ∧ (records.filter (isModeSpecific risk mode) = []
        → selectHarmAdvice records risk mode
            = (records.filter (isGeneral risk)).map HarmAdvice.advice) := by
  refine ⟨?_, List.filter_sublist _, List.filter_sublist _, ?_⟩
  · unfold selectHarmAdvice
    rw [List.map_append]
  · intro hempty
    unfold selectHarmAdvice
    rw [hempty, List.nil_append]

lemma assemble_risk_level (c : CoreOutcome) (e : String) :
    (assemble c e).risk_level = c.risk_level := rfl

lemma assemble_emergency (c : CoreOutcome) (e : String) :
    (assemble c e).emergency_symptoms = c.emergency_symptoms := rfl

/-- C2: for every successful request result, the emergency_symptoms field is
present exactly when the aggregate risk level is high or avoid; for low,
moderate and unknown the field is absent (`none`, not an empty list). -/
theorem emergency_symptoms_iff_high_or_avoid (cat : Catalog)
    (gen : GenContext → Option String) (req : CheckRequest) (r : RiskResult)
    (h : checkRequest cat gen req = Except.ok r) :
    (r.emergency_symptoms.isSome = true
      ↔ (r.risk_level = RiskLevel.high ∨ r.risk_level = RiskLevel.avoid))
    ∧ ((r.risk_level = RiskLevel.low ∨ r.risk_level = RiskLevel.moderate
        ∨ r.risk_level = RiskLevel.unknown) → r.emergency_symptoms = none) := by
  obtain ⟨c, hc, hr⟩ := checkRequest_ok_eq cat gen req r h
  have hcc := checkCore_ok_eq cat req c hc
  have hiff := coreFor_emergency cat (dedupFirst req.substance_ids) (modeOf req)
  rw [← hcc] at hiff
  subst hr
  rw [assemble_risk_level, assemble_emergency]
  constructor
  · exact hiff
  · intro hlow
    cases ho : c.emergency_symptoms with
    | none => rfl
    | some l =>
      exfalso
      have hha := hiff.mp (by rw [ho]; rfl)
      rcases hlow with hl | hl | hl <;> rcases hha with hh | hh <;> rw [hl] at hh <;> cases hh

/-- C2 witness: the gating equivalence evaluated on the concrete sample
request, whose aggregate risk is high. -/
theorem emergency_symptoms_gating_check :
    (mdmaAlcoholResult.emergency_symptoms.isSome = true
      ↔ (mdmaAlcoholResult.risk_level = RiskLevel.high
          ∨ mdmaAlcoholResult.risk_level = RiskLevel.avoid))
    ∧ ((mdmaAlcoholResult.risk_level = RiskLevel.low
        ∨ mdmaAlcoholResult.risk_level = RiskLevel.moderate
        ∨ mdmaAlcoholResult.risk_level = RiskLevel.unknown)
        → mdmaAlcoholResult.emergency_symptoms = none) :=
  emergency_symptoms_iff_high_or_avoid sampleCatalog sampleGen mdmaAlcoholRequest
    mdmaAlcoholResult rfl

lemma assemble_harm_advice (c : CoreOutcome) (e : String) :
    (assemble c e).harm_advice = c.harm_advice := rfl

lemma assemble_contributing (c : CoreOutcome) (e : String) :
    (assemble c e).contributing_pairs = c.contributing := rfl

lemma assemble_substances (c : CoreOutcome) (e : String) :
    (assemble c e).substances = c.names := rfl

lemma assemble_risk_color (c : CoreOutcome) (e : String) :
    (assemble c e).risk_color = riskColor c.risk_level := rfl

lemma assemble_explanation (c : CoreOutcome) (e : String) :
    (assemble c e).explanation = e := rfl

lemma ctxOf_risk (c : CoreOutcome) : (ctxOf c).risk = c.risk_level := rfl

lemma ctxOf_mechanisms (c : CoreOutcome) :
    (ctxOf c).mechanisms = c.contributing.map Interaction.mechanism := rfl

lemma riskName_ne_empty (r : RiskLevel) : riskName r ≠ "" := by
  cases r <;> decide

lemma selectHarmAdvice_ne_nil (records : List HarmAdvice) (risk : RiskLevel) (mode : Mode)
    (h : records.filter (isGeneral risk) ≠ []) :
    selectHarmAdvice records risk mode ≠ [] := by
  unfold selectHarmAdvice
  intro hc
  rw [List.map_eq_nil_iff, List.append_eq_nil] at hc
  exact h hc.2

/-- C4: when the generation collaborator fails on every attempt (timeout,
transport error, or malformed empty output), the request still succeeds with
a complete result: non-empty harm advice (given a catalog that carries
general advice for each risk level), a named risk level, and the
deterministic fallback explanation derived from the risk level and mechanism
text; and relative to any other generator the deterministic fields are
unaffected and no request failure is introduced. -/
theorem generation_failure_resilience (cat : Catalog)
    (gen genF : GenContext → Option String) (req : CheckRequest) (r : RiskResult)
    (hadv : ∀ risk : RiskLevel, cat.advice.filter (isGeneral risk) ≠ [])
    (hfail : ∀ ctx : GenContext, genF ctx = none ∨ genF ctx = some "")
    (hok : checkRequest cat genF req = Except.ok r) :
    r.harm_advice ≠ []
    ∧ riskName r.risk_level ≠ ""
    ∧ r.explanation
        = fallbackExplanation r.risk_level (r.contributing_pairs.map Interaction.mechanism)
    ∧ r.explanation ≠ ""
    ∧ (∀ r2 : RiskResult, checkRequest cat gen req = Except.ok r2 →
        r2.risk_level = r.risk_level ∧ r2.risk_color = r.risk_color
        ∧ r2.harm_advice = r.harm_advice ∧ r2.emergency_symptoms = r.emergency_symptoms
        ∧ r2.substances = r.substances ∧ r2.contributing_pairs = r.contributing_pairs)
    ∧ (∀ e : ValidationError, checkRequest cat gen req = Except.error e → False) := by
  obtain ⟨c, hc, hr⟩ := checkRequest_ok_eq cat genF req r hok
  have hcc := checkCore_ok_eq cat req c hc
  subst hr
  refine ⟨?_, riskName_ne_empty _, ?_, ?_, ?_, ?_⟩
  · rw [assemble_harm_advice, hcc, coreFor_harm_advice]
    exact selectHarmAdvice_ne_nil _ _ _ (hadv _)
  · rw [assemble_explanation, assemble_risk_level, assemble_contributing,
      explain_of_failing genF (ctxOf c) (hfail (ctxOf c)), ctxOf_risk, ctxOf_mechanisms]
  · rw [assemble_explanation]
    exact explain_ne_empty genF (ctxOf c)
  · intro r2 h2
    obtain ⟨c2, hc2, hr2⟩ := checkRequest_ok_eq cat gen req r2 h2
    rw [hc] at hc2
    cases hc2
    subst hr2
    exact ⟨rfl, rfl, rfl, rfl, rfl, rfl⟩
  · intro e he
    have := checkRequest_error_eq cat gen req e he
    rw [hc] at this
    cases this

/-- C4 witness: the resilience theorem applied to the sample catalog and
request under the always-failing generator. -/
theorem generation_failure_resilience_check :
    failedResult.harm_advice ≠ []
    ∧ riskName failedResult.risk_level ≠ ""
    ∧ failedResult.explanation
        = fallbackExplanation failedResult.risk_level
            (failedResult.contributing_pairs.map Interaction.mechanism)
    ∧ failedResult.explanation ≠ "" := by
  have h := generation_failure_resilience sampleCatalog sampleGen failingGen
    mdmaAlcoholRequest failedResult
    (by intro risk; cases risk <;> decide)
    (by intro ctx; exact Or.inl rfl)
    rfl
  exact ⟨h.1, h.2.1, h.2.2.1, h.2.2.2.1⟩

/-- C5: a request that deduplicates to exactly one catalogued substance id
still yields a complete response: risk level unknown, no contributing pairs,
the single resolved substance name, the generic caution advice selected for
unknown risk, no emergency symptoms, and an explanation produced with
single-substance context (no mechanism hints). -/
theorem single_substance_complete_response (cat : Catalog)
    (gen : GenContext → Option String) (req : CheckRequest) (a : String) (s : Substance)
    (hid : dedupFirst req.substance_ids = [a])
    (hsub : getSubstance cat a = some s) :
    checkRequest cat gen req = Except.ok
      { risk_level := RiskLevel.unknown
        risk_color := riskColor RiskLevel.unknown
        contributing_pairs := []
        substances := [s.name]
        harm_advice := selectHarmAdvice cat.advice RiskLevel.unknown (modeOf req)
        emergency_symptoms := none
        explanation := explain gen
          { risk := RiskLevel.unknown, substances := [s.name]
            mode := modeOf req, mechanisms := [] } } := by
  have hcore : checkCore cat req = Except.ok (coreFor cat [a] (modeOf req)) := by
    unfold checkCore
    dsimp only
    rw [hid]
    rw [if_neg (by simp)]
    have hfind : List.find? (fun i => (getSubstance cat i).isNone) [a] = none := by
      rw [List.find?_cons_of_neg _ (by rw [hsub]; simp)]
      rfl
    rw [hfind]
  have hcf : coreFor cat [a] (modeOf req)
      = { risk_level := RiskLevel.unknown
          contributing := []
          names := [s.name]
          mode := modeOf req
          harm_advice := selectHarmAdvice cat.advice RiskLevel.unknown (modeOf req)
          emergency_symptoms := none } := by
    unfold coreFor
    rw [if_pos (show ([a] : List String).length = 1 from rfl)]
    unfold namesFor
    simp [hsub]
  unfold checkRequest
  rw [hcore, hcf]
  rfl

/-- C5 witness: the theorem applied to a request whose ids deduplicate to
the single id mdma against the sample catalog. -/
theorem single_substance_check :
    checkRequest sampleCatalog sampleGen singleRequest = Except.ok
      { risk_level := RiskLevel.unknown
        risk_color := riskColor RiskLevel.unknown
        contributing_pairs := []
        substances := [mdmaSubstance.name]
        harm_advice := selectHarmAdvice sampleCatalog.advice RiskLevel.unknown
          (modeOf singleRequest)
        emergency_symptoms := none
        explanation := explain sampleGen
          { risk := RiskLevel.unknown, substances := [mdmaSubstance.name]
            mode := modeOf singleRequest, mechanisms := [] } } :=
  single_substance_complete_response sampleCatalog sampleGen singleRequest "mdma"
    mdmaSubstance (by decide) rfl

/-- C8: two runs of the same request against the same catalog, differing
only in the generator (the one non-deterministic collaborator), agree on
risk_level, risk_color, harm_advice and emergency_symptoms, and both carry a
non-empty explanation. -/
theorem idempotent_deterministic_fields (cat : Catalog)
    (g1 g2 : GenContext → Option String) (req : CheckRequest) (r1 r2 : RiskResult)
    (h1 : checkRequest cat g1 req = Except.ok r1)
    (h2 : checkRequest cat g2 req = Except.ok r2) :
    r1.risk_level = r2.risk_level
    ∧ r1.risk_color = r2.risk_color
    ∧ r1.harm_advice = r2.harm_advice
    ∧ r1.emergency_symptoms = r2.emergency_symptoms
    ∧ r1.explanation ≠ "" ∧ r2.explanation ≠ "" := by
  obtain ⟨c1, hc1, hr1⟩ := checkRequest_ok_eq cat g1 req r1 h1
  obtain ⟨c2, hc2, hr2⟩ := checkRequest_ok_eq cat g2 req r2 h2
  rw [hc1] at hc2
  cases hc2
  subst hr1
  subst hr2
  exact ⟨rfl, rfl, rfl, rfl, explain_ne_empty g1 (ctxOf c1), explain_ne_empty g2 (ctxOf c1)⟩

/-- C8 witness: the theorem applied to the sample request evaluated once
with the working generator and once with the failing generator. -/
theorem idempotence_check :
    mdmaAlcoholResult.risk_level = failedResult.risk_level
    ∧ mdmaAlcoholResult.risk_color = failedResult.risk_color
    ∧ mdmaAlcoholResult.harm_advice = failedResult.harm_advice
    ∧ mdmaAlcoholResult.emergency_symptoms = failedResult.emergency_symptoms
    ∧ mdmaAlcoholResult.explanation ≠ "" ∧ failedResult.explanation ≠ "" :=
  idempotent_deterministic_fields sampleCatalog sampleGen failingGen mdmaAlcoholRequest
    mdmaAlcoholResult failedResult rfl rfl

/-- C6: in the spec model, a request naming a substance id absent from the
catalog is rejected with a validation failure before the Aggregator runs,
evaluated here at the concrete failing input.  The repository's own test
log records instead that the deployed backend answers such requests with an
unknown-risk response. -/
theorem unknown_id_rejected_in_spec_model :
    checkRequest sampleCatalog sampleGen
      { substance_ids := ["notreal", "alcohol"], already_taken := false }
      = Except.error (ValidationError.unknownSubstance "notreal") := rfl

/-- C9: in the checker screen, the selected-ids list reachable by any
sequence of toggles from the empty selection holds distinct ids and never
exceeds 3 entries; the check handler posts a request only when at least 2
ids are selected, so the client never issues a single-substance request;
toggling an already-selected id removes it; and an addition is refused once
3 ids are selected. -/
theorem checker_selection_invariant (ops : List String) (already : Bool) :
    ((ops.foldl toggleSubstance []).Nodup ∧ (ops.foldl toggleSubstance []).length ≤ 3)
    ∧ (∀ r : CheckRequest, handleCheck (ops.foldl toggleSubstance []) already = some r
        → 2 ≤ r.substance_ids.length)
    ∧ (∀ (sel : List String) (i : String), i ∈ sel
        → toggleSubstance sel i = sel.filter fun x => x != i)
    ∧ (∀ (sel : List String) (i : String), i ∉ sel → 3 ≤ sel.length
        → toggleSubstance sel i = sel) := by
  have hstep : ∀ (sel : List String) (i : String),
      sel.Nodup ∧ sel.length ≤ 3
      → (toggleSubstance sel i).Nodup ∧ (toggleSubstance sel i).length ≤ 3 := by
    intro sel i hinv
    obtain ⟨hnd, hlen⟩ := hinv
    unfold toggleSubstance
    split
    · exact ⟨List.Nodup.filter _ hnd, Nat.le_trans (List.length_filter_le _ _) hlen⟩
    · split
      · case isFalse.isTrue hmem hlt =>
        constructor
        · rw [List.nodup_append]
          refine ⟨hnd, List.nodup_singleton i, ?_⟩
          intro x hx hx2
          rw [List.mem_singleton] at hx2
          subst hx2
          exact hmem hx
        · rw [List.length_append, List.length_singleton]
          omega
      · exact ⟨hnd, hlen⟩
  have hfold : ∀ (l : List String) (sel : List String),
      sel.Nodup ∧ sel.length ≤ 3
      → (l.foldl toggleSubstance sel).Nodup ∧ (l.foldl toggleSubstance sel).length ≤ 3 := by
    intro l
    induction l with
    | nil => intro sel h; exact h
    | cons o os ih =>
      intro sel h
      rw [List.foldl_cons]
      exact ih (toggleSubstance sel o) (hstep sel o h)
  refine ⟨hfold ops [] ⟨List.nodup_nil, by simp⟩, ?_, ?_, ?_⟩
  · intro r hr
    unfold handleCheck at hr
    split at hr
    · cases hr
    · case isFalse hge =>
      cases hr
      simp only
      omega
  · intro sel i hmem
    unfold toggleSubstance
    rw [if_pos hmem]
  · intro sel i hmem hge
    unfold toggleSubstance
    rw [if_neg hmem, if_neg (by omega)]

/-- C10: the result screen renders the emergency section exactly when the
emergency_symptoms field is non-null and non-empty; a present-but-empty
symptom list renders the same as an absent one, so the display does not
distinguish the two. -/
theorem emergency_section_render_iff (r : ResultData) :
    (rendersEmergencySection r = true
      ↔ ∃ l : List ResultSymptom, r.emergency_symptoms = some l ∧ l ≠ [])
    ∧ rendersEmergencySection { r with emergency_symptoms := some [] }
        = rendersEmergencySection { r with emergency_symptoms := none } := by
  constructor
  · unfold rendersEmergencySection
    cases h : r.emergency_symptoms with
    | none => simp
    | some l => simp [List.length_pos]
  · rfl
